import Mathlib

/-!
Shallow embedding of the per-connection protocol state machine in
`src/server.ts` (class `SubscriptionServer`).

Modelling conventions:
* JavaScript runtime values are modelled by the inductive `JSVal`
  (null, undefined, booleans, numbers, strings, arrays, plain objects).
  Truthiness, `typeof x === 'object'` and lodash `isObject` are embedded
  as boolean functions on `JSVal`.
* Promise chains are collapsed: each message's continuation chain runs to
  completion in attachment order once the value it waits on has settled.
  Handlers attached to the pending `initPromise` are queued (`Task`) and
  flushed, in attachment order, when the first handshake-init settles it.
* The `setTimeout` that closes the socket after a failed handshake is
  modelled by a list of delayed actions appended to the trace after all
  message processing (the 10ms flush delay is far longer than the
  microtask/message queue, so buffered client messages are processed
  before the delayed close fires).
* Calls into the external collaborators (the `SubscriptionManager`
  engine, the four application hooks) and every `connection.send` are
  recorded as `Action`s, so the trace captures every observable effect.
* The engine's `subscribe` result is a parameter (`subscribeFn`),
  indexed by the number of prior subscribe calls of the connection, so
  concrete runs can exercise arbitrary engine behaviour (including
  returning the handle 0, which the real manager hands out first).
-/

namespace SubTransport

/-- JavaScript-like runtime values, as far as `server.ts` inspects them. -/
inductive JSVal where
  | vnull
  | vundefined
  | vbool (b : Bool)
  | vnum (n : Int)
  | vstr (s : String)
  | varr (elems : List JSVal)
  | vobj (fields : List (String × JSVal))

/-- JavaScript truthiness of a value. -/
def truthy : JSVal → Bool
  | .vnull => false
  | .vundefined => false
  | .vbool b => b
  | .vnum n => n != 0
  | .vstr s => s != ""
  | .varr _ => true
  | .vobj _ => true

/-- Property access `v.k`: defined fields of plain objects, `undefined`
otherwise (matching access of a missing property). -/
def getField (v : JSVal) (k : String) : JSVal :=
  match v with
  | .vobj fields =>
    match fields.lookup k with
    | some x => x
    | none => .vundefined
  | _ => .vundefined

/-- lodash `isObject`: true for objects and arrays, false for primitives
and for null. Used on the handshake result at server.ts line 188. -/
def isObject : JSVal → Bool
  | .varr _ => true
  | .vobj _ => true
  | _ => false

/-- The check `typeof params === 'object'` (server.ts line 207).
Note `typeof null === 'object'` in JavaScript. -/
def typeofIsObject : JSVal → Bool
  | .vnull => true
  | .varr _ => true
  | .vobj _ => true
  | _ => false

/-- A thrown `new Error(s)`: an object whose `message` field is `s`. -/
def jsError (s : String) : JSVal :=
  .vobj [("message", .vstr s)]

/-- Message type constants (imported by server.ts from messageTypes.ts,
which is outside the provided sources; the dispatch only compares them
for equality, so they are embedded as an inductive). -/
inductive MsgType where
  | init
  | subscriptionStart
  | subscriptionEnd
  | unknown (tag : String)
deriving DecidableEq

/-- A decoded client message (interface SubscribeMessage): fields absent
from the JSON decode are `undefined`; `id` is `none` when absent. -/
structure ParsedMessage where
  type : MsgType
  id : Option String
  payload : JSVal
  query : JSVal
  varsField : JSVal
  operationName : JSVal

/-- Server-to-client messages (the sendXxx helpers of server.ts). -/
inductive ServerMsg where
  | initSuccess
  | initFail (errVal : JSVal)
  | subscriptionData (id : Option String) (payload : JSVal)
  | subscriptionFail (id : Option String) (payload : JSVal)
  | subscriptionSuccess (id : Option String)
  | keepAlive

/-- Observable effects of the connection handler: sends, hook
invocations, engine calls and socket closure. -/
inductive Action where
  | send (m : ServerMsg)
  | connectHookCall
  | subscribeHookCall
  | unsubscribeHookCall
  | disconnectHookCall
  | engineSubscribe (callIdx : Nat)
  | engineUnsubscribe (handle : Nat)
  | close (code : Nat)
  | terminate

/-- The per-connection registry `connectionSubscriptions`: client
subscription id to engine handle, in key insertion order. -/
abbrev Reg := List (String × Nat)

/-- Registry read `connectionSubscriptions[subId]`. -/
def regLookup : Reg → String → Option Nat
  | [], _ => none
  | (k, h) :: rest, key => if k = key then some h else regLookup rest key

/-- Registry write `connectionSubscriptions[subId] = h` (overwrites in
place when the key exists, appends otherwise). -/
def regInsert (reg : Reg) (k : String) (h : Nat) : Reg :=
  if (regLookup reg k).isSome then
    reg.map (fun p => if p.1 = k then (k, h) else p)
  else
    reg ++ [(k, h)]

/-- Registry delete `delete connectionSubscriptions[subId]`. -/
def regRemove (reg : Reg) (k : String) : Reg :=
  reg.filter (fun p => p.1 != k)

/-- Property key used to index the registry: the message id, or the
string a missing id coerces to. -/
def idKey : Option String → String
  | some s => s
  | none => "undefined"

/-- Server configuration: the four optional hooks and the engine's
subscribe behaviour. Hooks that return or throw are embedded as
`Except` (error value = the rejection reason / thrown value). -/
structure ServerOpts where
  onConnect : Option (JSVal → Except JSVal JSVal)
  onSubscribe : Option (ParsedMessage → JSVal → Except JSVal JSVal)
  hasOnUnsubscribe : Bool
  hasOnDisconnect : Bool
  subscribeFn : Nat → JSVal → Except JSVal Nat

/-- Payload `{errors: [{message: s}]}`. -/
def singleMessageErrors (s : String) : JSVal :=
  .vobj [("errors", .varr [.vobj [("message", .vstr s)]])]

/-- The catch handler payload of the subscription-start chain
(server.ts lines 235-242): `e.errors` forwarded when truthy, else a
single-element wrap of `e.message`. -/
def catchFailPayload (e : JSVal) : JSVal :=
  if truthy (getField e "errors") then
    .vobj [("errors", getField e "errors")]
  else
    .vobj [("errors", .varr [.vobj [("message", getField e "message")]])]

/-- The per-event delivery callback `params.callback` installed at
server.ts lines 221-229, as the message it sends for one event. -/
def subscriptionCallbackMsg (subId : Option String) (error result : JSVal) : ServerMsg :=
  if !truthy error then
    .subscriptionData subId result
  else if truthy (getField error "errors") then
    .subscriptionData subId (.vobj [("errors", getField error "errors")])
  else
    .subscriptionData subId (.vobj [("errors", .varr [.vobj [("message", getField error "message")]])])

/-- Outcome the first handshake-init settles `initPromise` with: the
`onConnect` hook's result (thrown/rejected values on the error side), or
`true` when no hook is configured (server.ts lines 147-159). -/
def connectOutcome (opts : ServerOpts) (payload : JSVal) : Except JSVal JSVal :=
  match opts.onConnect with
  | none => .ok (.vbool true)
  | some f => f payload

/-- The `onConnect` hook invocation recorded per handshake-init message
(the Promise executor at lines 150-156 runs synchronously on each INIT). -/
def connectHookActs (opts : ServerOpts) : List Action :=
  match opts.onConnect with
  | none => []
  | some _ => [.connectHookCall]

/-- The `baseParams` object built at server.ts lines 184-192; context is
a copy of the handshake result when it is an object, else empty. -/
def baseParamsVal (m : ParsedMessage) (initResult : JSVal) : JSVal :=
  .vobj [("query", m.query),
         ("variables", m.varsField),
         ("operationName", m.operationName),
         ("context", if isObject initResult then initResult else .vobj []),
         ("formatResponse", .vundefined),
         ("formatError", .vundefined),
         ("callback", .vundefined)]

/-- Value of `promisedParams` (server.ts lines 193-197): the base params,
or the `onSubscribe` hook's (possibly rejecting) result. -/
def promisedParamsOf (opts : ServerOpts) (m : ParsedMessage) (initResult : JSVal) :
    Except JSVal JSVal :=
  match opts.onSubscribe with
  | none => .ok (baseParamsVal m initResult)
  | some f => f m (baseParamsVal m initResult)

/-- The `onSubscribe` hook invocation, recorded when configured. -/
def subscribeHookActs (opts : ServerOpts) : List Action :=
  match opts.onSubscribe with
  | none => []
  | some _ => [.subscribeHookCall]

/-- `this.unsubscribe` (server.ts lines 111-117): engine unsubscribe then
the optional `onUnsubscribe` hook. -/
def unsubActs (opts : ServerOpts) (h : Nat) : List Action :=
  .engineUnsubscribe h :: (if opts.hasOnUnsubscribe then [.unsubscribeHookCall] else [])

/-- The string thrown at server.ts line 208. -/
def invalidParamsText : String :=
  "Invalid params returned from onSubscribe! return values must be an object!"

/-- The subscription-start continuation (server.ts lines 183-243), run
once `initPromise` has settled with outcome `o`: skipped entirely on a
rejected handshake; otherwise invokes the hook, replaces a truthy
duplicate handle, checks the params type, and calls the engine. -/
def runStart (opts : ServerOpts) (m : ParsedMessage) (o : Except JSVal JSVal)
    (reg : Reg) (sc : Nat) : Reg × Nat × List Action :=
  match o with
  | .error _ => (reg, sc, [])
  | .ok initResult =>
    let key := idKey m.id
    let promisedParams := promisedParamsOf opts m initResult
    let dup : Option Nat :=
      match regLookup reg key with
      | some h0 => if h0 != 0 then some h0 else none
      | none => none
    let (reg1, dupActs) :=
      match dup with
      | some h0 => (regRemove reg key, unsubActs opts h0)
      | none => (reg, ([] : List Action))
    match promisedParams with
    | .error e =>
      (reg1, sc, subscribeHookActs opts ++ dupActs ++
        [.send (.subscriptionFail m.id (catchFailPayload e))])
    | .ok params =>
      if typeofIsObject params then
        match opts.subscribeFn sc params with
        | .ok h =>
          (regInsert reg1 key h, sc + 1, subscribeHookActs opts ++ dupActs ++
            [.engineSubscribe sc, .send (.subscriptionSuccess m.id)])
        | .error e =>
          (reg1, sc + 1, subscribeHookActs opts ++ dupActs ++
            [.engineSubscribe sc, .send (.subscriptionFail m.id (catchFailPayload e))])
      else
        (reg1, sc, subscribeHookActs opts ++ dupActs ++
          [.send (.subscriptionFail m.id (singleMessageErrors invalidParamsText)),
           .send (.subscriptionFail m.id (catchFailPayload (jsError invalidParamsText)))])

/-- The subscription-end continuation (server.ts lines 246-255), run once
`initPromise` has settled: skipped on a rejected handshake; otherwise
unsubscribes and removes any present entry (the check is
`typeof connectionSubscriptions[subId] !== 'undefined'`, so the handle 0
is removed too); no response is sent. -/
def runEnd (opts : ServerOpts) (subId : Option String) (o : Except JSVal JSVal)
    (reg : Reg) : Reg × List Action :=
  match o with
  | .error _ => (reg, [])
  | .ok _ =>
    match regLookup reg (idKey subId) with
    | some h => (regRemove reg (idKey subId), unsubActs opts h)
    | none => (reg, [])

/-- A continuation attached to the still-pending `initPromise`. -/
inductive Task where
  | startTask (m : ParsedMessage)
  | endTask (subId : Option String)

/-- The handshake's one-shot settled value: pending with its waiting
continuations, or settled exactly once. -/
inductive InitState where
  | pending (queue : List Task)
  | settled (outcome : Except JSVal JSVal)

/-- Per-connection state (registry, handshake state, and the count of
engine subscribe calls made so far, which indexes `subscribeFn`). -/
structure ConnState where
  initState : InitState
  reg : Reg
  subCount : Nat

/-- Run the queued continuations, in attachment order, against the
outcome the handshake settled with. -/
def flushQueue (opts : ServerOpts) (o : Except JSVal JSVal) :
    List Task → Reg → Nat → Reg × Nat × List Action
  | [], reg, sc => (reg, sc, [])
  | t :: rest, reg, sc =>
    let step :=
      match t with
      | .startTask m => runStart opts m o reg sc
      | .endTask subId =>
        let (r, a) := runEnd opts subId o reg
        (r, sc, a)
    let next := flushQueue opts o rest step.1 step.2.1
    (next.1, next.2.1, step.2.2 ++ next.2.2)

/-- The init-result message computed by the chain at server.ts lines
161-176: a `false` result throws `Error('Prohibited connection!')`, a
rejection is caught, and the catch reads the error's message. -/
def initChainResult (o : Except JSVal JSVal) : ServerMsg :=
  match o with
  | .ok (.vbool false) => .initFail (getField (jsError "Prohibited connection!") "message")
  | .ok _ => .initSuccess
  | .error e => .initFail (getField e "message")

/-- Effects of `sendInitResult` (server.ts lines 296-310): the response
is sent; on INIT_FAIL a delayed close(1011)+terminate is scheduled
behind the 10ms flush timeout. Returns (immediate sends, delayed). -/
def initChainSends (o : Except JSVal JSVal) : List Action × List Action :=
  match initChainResult o with
  | .initFail e => ([.send (.initFail e)], [.close 1011, .terminate])
  | r => ([.send r], [])

/-- An incoming raw frame: either it fails to decode (with the decode
error's message) or it decodes to a message. -/
inductive RawMsg where
  | decodeErr (errMsg : String)
  | parsed (m : ParsedMessage)

/-- Result of processing one raw message: new state, immediate actions,
and delayed actions (scheduled closures). -/
structure StepOut where
  state : ConnState
  acts : List Action
  delayed : List Action

/-- The message handler returned by `onMessage` (server.ts lines
136-264), as a state transition per raw message. -/
def processMessage (opts : ServerOpts) (msg : RawMsg) (st : ConnState) : StepOut :=
  match msg with
  | .decodeErr e =>
    ⟨st, [.send (.subscriptionFail none (singleMessageErrors e))], []⟩
  | .parsed m =>
    match m.type with
    | .init =>
      let o := connectOutcome opts m.payload
      match st.initState with
      | .pending q =>
        let flushed := flushQueue opts o q st.reg st.subCount
        let chain := initChainSends o
        ⟨⟨.settled o, flushed.1, flushed.2.1⟩,
          connectHookActs opts ++ flushed.2.2 ++ chain.1, chain.2⟩
      | .settled o0 =>
        let chain := initChainSends o0
        ⟨st, connectHookActs opts ++ chain.1, chain.2⟩
    | .subscriptionStart =>
      match st.initState with
      | .pending q =>
        ⟨⟨.pending (q ++ [.startTask m]), st.reg, st.subCount⟩, [], []⟩
      | .settled o =>
        let r := runStart opts m o st.reg st.subCount
        ⟨⟨.settled o, r.1, r.2.1⟩, r.2.2, []⟩
    | .subscriptionEnd =>
      match st.initState with
      | .pending q =>
        ⟨⟨.pending (q ++ [.endTask m.id]), st.reg, st.subCount⟩, [], []⟩
      | .settled o =>
        let r := runEnd opts m.id o st.reg
        ⟨⟨.settled o, r.1, st.subCount⟩, r.2, []⟩
    | .unknown _ =>
      ⟨st, [.send (.subscriptionFail m.id (singleMessageErrors "Invalid message type!"))], []⟩

/-- Process a list of raw messages from state `st`, accumulating
immediate and delayed actions. -/
def runFrom (opts : ServerOpts) (st : ConnState) : List RawMsg → StepOut
  | [] => ⟨st, [], []⟩
  | msg :: rest =>
    let s1 := processMessage opts msg st
    let s2 := runFrom opts s1.state rest
    ⟨s2.state, s1.acts ++ s2.acts, s1.delayed ++ s2.delayed⟩

/-- State of a freshly accepted connection. -/
def initialConnState : ConnState :=
  ⟨.pending [], [], 0⟩

/-- Full run of a connection: process all messages, then the delayed
closures fire. Returns the final state and the full action trace. -/
def runConn (opts : ServerOpts) (msgs : List RawMsg) : ConnState × List Action :=
  let r := runFrom opts initialConnState msgs
  (r.state, r.acts ++ r.delayed)

/-- The full observable action trace of a connection run. -/
def runConnTrace (opts : ServerOpts) (msgs : List RawMsg) : List Action :=
  (runConn opts msgs).2

/-- The close handler's drain (server.ts lines 119-126): each registry
entry is unsubscribed and deleted. -/
def drainClose (opts : ServerOpts) : Reg → Reg × List Action
  | [] => ([], [])
  | (_, h) :: rest =>
    let r := drainClose opts rest
    (r.1, unsubActs opts h ++ r.2)

/-- The full close path (server.ts lines 101-107): drain the registry,
then the optional `onDisconnect` hook. -/
def onCloseRun (opts : ServerOpts) (reg : Reg) : Reg × List Action :=
  let r := drainClose opts reg
  (r.1, r.2 ++ (if opts.hasOnDisconnect then [.disconnectHookCall] else []))

/-- Action classifiers used by the theorems. -/
def isInitResponse : Action → Bool
  | .send .initSuccess => true
  | .send (.initFail _) => true
  | _ => false

def isSubSuccessSend : Action → Bool
  | .send (.subscriptionSuccess _) => true
  | _ => false

def isEngineSubscribeAct : Action → Bool
  | .engineSubscribe _ => true
  | _ => false

def isConnectHookAct : Action → Bool
  | .connectHookCall => true
  | _ => false

/-- Handles passed to engine unsubscribe calls, in trace order. -/
def unsubHandles (l : List Action) : List Nat :=
  l.filterMap fun a =>
    match a with
    | .engineUnsubscribe h => some h
    | _ => none

def isDataMsg : ServerMsg → Bool
  | .subscriptionData _ _ => true
  | _ => false

/-- Raw-message classifiers. -/
def isInitMsg : RawMsg → Bool
  | .parsed m =>
    match m.type with
    | .init => true
    | _ => false
  | _ => false

def isSubMsg : RawMsg → Bool
  | .parsed m =>
    match m.type with
    | .subscriptionStart => true
    | .subscriptionEnd => true
    | _ => false
  | _ => false

/-- Hook outcome of the first handshake-init in a message list, if any. -/
def firstInitOutcome (opts : ServerOpts) : List RawMsg → Option (Except JSVal JSVal)
  | [] => none
  | .parsed m :: rest =>
    match m.type with
    | .init => some (connectOutcome opts m.payload)
    | _ => firstInitOutcome opts rest
  | .decodeErr _ :: rest => firstInitOutcome opts rest

/-- The settled value of the handshake, when resolved. -/
def settledOf (st : ConnState) : Option (Except JSVal JSVal) :=
  match st.initState with
  | .pending _ => none
  | .settled o => some o

/-! Concrete fixtures used by counterexamples and witnesses. -/

/-- A connect hook that rejects with message "nope". -/
def rejectHook : JSVal → Except JSVal JSVal :=
  fun _ => .error (jsError "nope")

/-- A before-subscribe hook that resolves to a non-object value. -/
def badSubHook : ParsedMessage → JSVal → Except JSVal JSVal :=
  fun _ _ => .ok (.vnum 7)

/-- Server with no hooks; the engine hands out the call index as the
handle (so the first handle is 0, as the real manager does). -/
def optsPlain : ServerOpts :=
  ⟨none, none, false, false, fun i _ => .ok i⟩

/-- Server whose connect hook rejects. -/
def optsReject : ServerOpts :=
  ⟨some rejectHook, none, false, false, fun i _ => .ok i⟩

/-- Server whose connect hook resolves to the boolean false. -/
def optsFalse : ServerOpts :=
  ⟨some (fun _ => .ok (.vbool false)), none, false, false, fun i _ => .ok i⟩

/-- Server whose before-subscribe hook resolves to a non-object. -/
def optsBadSub : ServerOpts :=
  ⟨none, some badSubHook, false, false, fun i _ => .ok i⟩

/-- A handshake-init message carrying payload `p`. -/
def initM (p : JSVal) : ParsedMessage :=
  ⟨.init, none, p, .vundefined, .vundefined, .vundefined⟩

/-- A subscription-start message for id `i`. -/
def startM (i : String) : ParsedMessage :=
  ⟨.subscriptionStart, some i, .vundefined, .vstr "q", .vundefined, .vundefined⟩

/-- A subscription-end message for id `i`. -/
def endM (i : String) : ParsedMessage :=
  ⟨.subscriptionEnd, some i, .vundefined, .vundefined, .vundefined, .vundefined⟩

/-! Helper lemmas about the action vocabulary of the handlers. -/

lemma unsubHandles_append (l1 l2 : List Action) :
    unsubHandles (l1 ++ l2) = unsubHandles l1 ++ unsubHandles l2 :=
  List.filterMap_append l1 l2 _

lemma unsubHandles_subscribeHookActs (opts : ServerOpts) :
    unsubHandles (subscribeHookActs opts) = [] := by
  cases h : opts.onSubscribe <;> simp [subscribeHookActs, h, unsubHandles]

lemma unsubHandles_unsubActs (opts : ServerOpts) (h : Nat) :
    unsubHandles (unsubActs opts h) = [h] := by
  cases hb : opts.hasOnUnsubscribe <;> simp [unsubActs, hb, unsubHandles]

lemma countP_subscribeHookActs (opts : ServerOpts) (p : Action → Bool)
    (h : p .subscribeHookCall = false) :
    (subscribeHookActs opts).countP p = 0 := by
  cases ho : opts.onSubscribe <;> simp [subscribeHookActs, ho, List.countP_cons, h]

lemma countP_connectHookActs (opts : ServerOpts) (p : Action → Bool)
    (h : p .connectHookCall = false) :
    (connectHookActs opts).countP p = 0 := by
  cases ho : opts.onConnect <;> simp [connectHookActs, ho, List.countP_cons, h]

lemma countP_unsubActs (opts : ServerOpts) (hd : Nat) (p : Action → Bool)
    (h1 : ∀ h, p (.engineUnsubscribe h) = false)
    (h2 : p .unsubscribeHookCall = false) :
    (unsubActs opts hd).countP p = 0 := by
  cases hb : opts.hasOnUnsubscribe <;>
    simp [unsubActs, hb, List.countP_cons, h1, h2]

/-- Predicates false on every action the subscription-start and
subscription-end continuations can emit. -/
structure NotSubAct (p : Action → Bool) : Prop where
  hookSub : p .subscribeHookCall = false
  hookUnsub : p .unsubscribeHookCall = false
  engSub : ∀ i, p (.engineSubscribe i) = false
  engUnsub : ∀ h, p (.engineUnsubscribe h) = false
  sendFail : ∀ i pl, p (.send (.subscriptionFail i pl)) = false
  sendSucc : ∀ i, p (.send (.subscriptionSuccess i)) = false

lemma countP_runStart (opts : ServerOpts) (m : ParsedMessage)
    (o : Except JSVal JSVal) (reg : Reg) (sc : Nat) (p : Action → Bool)
    (hp : NotSubAct p) :
    (runStart opts m o reg sc).2.2.countP p = 0 := by
  cases o with
  | error e => simp [runStart]
  | ok iv =>
    have hdup : ∀ d : Option Nat,
        ((match d with
          | some h0 => (regRemove reg (idKey m.id), unsubActs opts h0)
          | none => (reg, ([] : List Action))).2).countP p = 0 := by
      intro d
      cases d with
      | none => simp
      | some h0 => exact countP_unsubActs opts h0 p hp.engUnsub hp.hookUnsub
    unfold runStart
    cases hpp : promisedParamsOf opts m iv with
    | error e =>
      simp [hpp, List.countP_append, List.countP_cons, List.countP_nil,
        hp.sendFail, countP_subscribeHookActs opts p hp.hookSub, hdup]
    | ok params =>
      by_cases ht : typeofIsObject params
      · cases hs : opts.subscribeFn sc params with
        | ok h =>
          simp [hpp, ht, hs, List.countP_append, List.countP_cons,
            List.countP_nil, hp.sendSucc, hp.engSub,
            countP_subscribeHookActs opts p hp.hookSub, hdup]
        | error e =>
          simp [hpp, ht, hs, List.countP_append, List.countP_cons,
            List.countP_nil, hp.sendFail, hp.engSub,
            countP_subscribeHookActs opts p hp.hookSub, hdup]
      · simp [hpp, if_neg ht, List.countP_append, List.countP_cons,
          List.countP_nil, hp.sendFail,
          countP_subscribeHookActs opts p hp.hookSub, hdup]

lemma countP_runEnd (opts : ServerOpts) (subId : Option String)
    (o : Except JSVal JSVal) (reg : Reg) (p : Action → Bool)
    (hp : NotSubAct p) :
    (runEnd opts subId o reg).2.countP p = 0 := by
  cases o with
  | error e => simp [runEnd]
  | ok iv =>
    unfold runEnd
    cases hl : regLookup reg (idKey subId) with
    | none => simp
    | some h => simpa using countP_unsubActs opts h p hp.engUnsub hp.hookUnsub

lemma countP_flushQueue (opts : ServerOpts) (o : Except JSVal JSVal)
    (q : List Task) (p : Action → Bool) (hp : NotSubAct p) :
    ∀ reg sc, (flushQueue opts o q reg sc).2.2.countP p = 0 := by
  induction q with
  | nil => intro reg sc; simp [flushQueue]
  | cons t rest ih =>
    intro reg sc
    cases t with
    | startTask m =>
      simp only [flushQueue, List.countP_append]
      rw [countP_runStart opts m o reg sc p hp, ih]
    | endTask subId =>
      simp only [flushQueue, List.countP_append]
      rw [countP_runEnd opts subId o reg p hp, ih]

/-- The init chain sends exactly one init response and its delayed part
is either empty or the scheduled close+terminate. -/
lemma initChainSends_shape (o : Except JSVal JSVal) :
    ((initChainSends o).1.countP isInitResponse = 1 ∧
      ∀ p : Action → Bool, (∀ i pl, p (.send (.subscriptionFail i pl)) = false) →
        (∀ i, p (.send (.subscriptionSuccess i)) = false) →
        p (.send .initSuccess) = false → (∀ v, p (.send (.initFail v)) = false) →
        (initChainSends o).1.countP p = 0) ∧
    ((initChainSends o).2 = [] ∨ (initChainSends o).2 = [.close 1011, .terminate]) := by
  rcases o with e | v
  · exact ⟨⟨rfl, fun p _ _ _ h4 => by
      simp [initChainSends, initChainResult, List.countP_cons, h4]⟩, Or.inr rfl⟩
  · cases v with
    | vbool b =>
      cases b
      · exact ⟨⟨rfl, fun p _ _ _ h4 => by
          simp [initChainSends, initChainResult, List.countP_cons, h4]⟩, Or.inr rfl⟩
      · exact ⟨⟨rfl, fun p _ _ h3 _ => by
          simp [initChainSends, initChainResult, List.countP_cons, h3]⟩, Or.inl rfl⟩
    | vnull => exact ⟨⟨rfl, fun p _ _ h3 _ => by
        simp [initChainSends, initChainResult, List.countP_cons, h3]⟩, Or.inl rfl⟩
    | vundefined => exact ⟨⟨rfl, fun p _ _ h3 _ => by
        simp [initChainSends, initChainResult, List.countP_cons, h3]⟩, Or.inl rfl⟩
    | vnum n => exact ⟨⟨rfl, fun p _ _ h3 _ => by
        simp [initChainSends, initChainResult, List.countP_cons, h3]⟩, Or.inl rfl⟩
    | vstr s => exact ⟨⟨rfl, fun p _ _ h3 _ => by
        simp [initChainSends, initChainResult, List.countP_cons, h3]⟩, Or.inl rfl⟩
    | varr l => exact ⟨⟨rfl, fun p _ _ h3 _ => by
        simp [initChainSends, initChainResult, List.countP_cons, h3]⟩, Or.inl rfl⟩
    | vobj l => exact ⟨⟨rfl, fun p _ _ h3 _ => by
        simp [initChainSends, initChainResult, List.countP_cons, h3]⟩, Or.inl rfl⟩

lemma notSubAct_isInitResponse : NotSubAct isInitResponse :=
  ⟨rfl, rfl, fun _ => rfl, fun _ => rfl, fun _ _ => rfl, fun _ => rfl⟩

lemma notSubAct_isConnectHook : NotSubAct isConnectHookAct :=
  ⟨rfl, rfl, fun _ => rfl, fun _ => rfl, fun _ _ => rfl, fun _ => rfl⟩

lemma countP_connectHookActs_self (opts : ServerOpts) :
    (connectHookActs opts).countP isConnectHookAct =
      if opts.onConnect.isSome then 1 else 0 := by
  cases ho : opts.onConnect <;>
    simp [connectHookActs, ho, List.countP_cons, isConnectHookAct]

/-- Each raw message contributes exactly one init response to the trace
when it is a handshake-init, and none otherwise. -/
lemma step_initResponse (opts : ServerOpts) (msg : RawMsg) (st : ConnState) :
    (processMessage opts msg st).acts.countP isInitResponse =
      (if isInitMsg msg then 1 else 0) ∧
    (processMessage opts msg st).delayed.countP isInitResponse = 0 := by
  cases msg with
  | decodeErr e =>
    simp [processMessage, isInitMsg, List.countP_cons, isInitResponse]
  | parsed m =>
    cases htype : m.type with
    | init =>
      cases hst : st.initState with
      | pending q =>
        obtain ⟨⟨h1, _⟩, h2⟩ := initChainSends_shape (connectOutcome opts m.payload)
        constructor
        · simp [processMessage, htype, hst, List.countP_append,
            countP_connectHookActs opts isInitResponse rfl,
            countP_flushQueue opts (connectOutcome opts m.payload) q
              isInitResponse notSubAct_isInitResponse,
            h1, isInitMsg]
        · rcases h2 with h2 | h2 <;>
            simp [processMessage, htype, hst, h2, List.countP_cons, isInitResponse]
      | settled o0 =>
        obtain ⟨⟨h1, _⟩, h2⟩ := initChainSends_shape o0
        constructor
        · simp [processMessage, htype, hst, List.countP_append,
            countP_connectHookActs opts isInitResponse rfl, h1, isInitMsg]
        · rcases h2 with h2 | h2 <;>
            simp [processMessage, htype, hst, h2, List.countP_cons, isInitResponse]
    | subscriptionStart =>
      cases hst : st.initState with
      | pending q => simp [processMessage, htype, hst, isInitMsg]
      | settled o =>
        simp [processMessage, htype, hst, isInitMsg,
          countP_runStart opts m o st.reg st.subCount isInitResponse notSubAct_isInitResponse]
    | subscriptionEnd =>
      cases hst : st.initState with
      | pending q => simp [processMessage, htype, hst, isInitMsg]
      | settled o =>
        simp [processMessage, htype, hst, isInitMsg,
          countP_runEnd opts m.id o st.reg isInitResponse notSubAct_isInitResponse]
    | unknown tag =>
      simp [processMessage, htype, isInitMsg, List.countP_cons, isInitResponse]

/-- The connect hook is invoked exactly once per handshake-init message
(whenever it is configured), including repeated inits. -/
lemma step_connectHook (opts : ServerOpts) (msg : RawMsg) (st : ConnState) :
    (processMessage opts msg st).acts.countP isConnectHookAct =
      (if isInitMsg msg && opts.onConnect.isSome then 1 else 0) ∧
    (processMessage opts msg st).delayed.countP isConnectHookAct = 0 := by
  cases msg with
  | decodeErr e =>
    simp [processMessage, isInitMsg, List.countP_cons, isConnectHookAct]
  | parsed m =>
    cases htype : m.type with
    | init =>
      cases hst : st.initState with
      | pending q =>
        obtain ⟨⟨_, h1⟩, h2⟩ := initChainSends_shape (connectOutcome opts m.payload)
        constructor
        · simp [processMessage, htype, hst, List.countP_append,
            countP_connectHookActs_self opts,
            countP_flushQueue opts (connectOutcome opts m.payload) q
              isConnectHookAct notSubAct_isConnectHook,
            h1 isConnectHookAct (fun _ _ => rfl) (fun _ => rfl) rfl (fun _ => rfl),
            isInitMsg]
        · rcases h2 with h2 | h2 <;>
            simp [processMessage, htype, hst, h2, List.countP_cons, isConnectHookAct]
      | settled o0 =>
        obtain ⟨⟨_, h1⟩, h2⟩ := initChainSends_shape o0
        constructor
        · simp [processMessage, htype, hst, List.countP_append,
            countP_connectHookActs_self opts,
            h1 isConnectHookAct (fun _ _ => rfl) (fun _ => rfl) rfl (fun _ => rfl),
            isInitMsg]
        · rcases h2 with h2 | h2 <;>
            simp [processMessage, htype, hst, h2, List.countP_cons, isConnectHookAct]
    | subscriptionStart =>
      cases hst : st.initState with
      | pending q => simp [processMessage, htype, hst, isInitMsg]
      | settled o =>
        simp [processMessage, htype, hst, isInitMsg,
          countP_runStart opts m o st.reg st.subCount isConnectHookAct notSubAct_isConnectHook]
    | subscriptionEnd =>
      cases hst : st.initState with
      | pending q => simp [processMessage, htype, hst, isInitMsg]
      | settled o =>
        simp [processMessage, htype, hst, isInitMsg,
          countP_runEnd opts m.id o st.reg isConnectHookAct notSubAct_isConnectHook]
    | unknown tag =>
      simp [processMessage, htype, isInitMsg, List.countP_cons, isConnectHookAct]

/-- Once the handshake settled value is resolved, it never changes. -/
lemma step_settled (opts : ServerOpts) (msg : RawMsg) (st : ConnState)
    (o : Except JSVal JSVal) (h : st.initState = .settled o) :
    (processMessage opts msg st).state.initState = .settled o := by
  cases msg with
  | decodeErr e => simpa [processMessage] using h
  | parsed m =>
    cases htype : m.type with
    | init => simp [processMessage, htype, h]
    | subscriptionStart => simp [processMessage, htype, h]
    | subscriptionEnd => simp [processMessage, htype, h]
    | unknown tag => simpa [processMessage, htype] using h

lemma run_settled (opts : ServerOpts) (msgs : List RawMsg) :
    ∀ st o, st.initState = .settled o →
      (runFrom opts st msgs).state.initState = .settled o := by
  induction msgs with
  | nil => intro st o h; simpa [runFrom] using h
  | cons msg rest ih =>
    intro st o h
    simp only [runFrom]
    exact ih _ o (step_settled opts msg st o h)

/-- The handshake settles at the first handshake-init, with the outcome
of that init's connect-hook invocation; absent any init it stays
pending. -/
lemma run_pending_settles (opts : ServerOpts) (msgs : List RawMsg) :
    ∀ q reg sc,
      settledOf (runFrom opts ⟨.pending q, reg, sc⟩ msgs).state =
        firstInitOutcome opts msgs := by
  induction msgs with
  | nil => intro q reg sc; rfl
  | cons msg rest ih =>
    intro q reg sc
    cases msg with
    | decodeErr e =>
      simpa [runFrom, processMessage, firstInitOutcome] using ih q reg sc
    | parsed m =>
      cases htype : m.type with
      | init =>
        have hset := run_settled opts rest
          ⟨.settled (connectOutcome opts m.payload),
            (flushQueue opts (connectOutcome opts m.payload) q reg sc).1,
            (flushQueue opts (connectOutcome opts m.payload) q reg sc).2.1⟩
          (connectOutcome opts m.payload) rfl
        simp only [runFrom, processMessage, htype, firstInitOutcome, settledOf]
        rw [hset]
      | subscriptionStart =>
        simpa [runFrom, processMessage, htype, firstInitOutcome] using
          ih (q ++ [.startTask m]) reg sc
      | subscriptionEnd =>
        simpa [runFrom, processMessage, htype, firstInitOutcome] using
          ih (q ++ [.endTask m.id]) reg sc
      | unknown tag =>
        simpa [runFrom, processMessage, htype, firstInitOutcome] using ih q reg sc

lemma run_initResponse (opts : ServerOpts) (msgs : List RawMsg) :
    ∀ st,
      (runFrom opts st msgs).acts.countP isInitResponse = msgs.countP isInitMsg ∧
      (runFrom opts st msgs).delayed.countP isInitResponse = 0 := by
  induction msgs with
  | nil => intro st; simp [runFrom]
  | cons msg rest ih =>
    intro st
    obtain ⟨h1, h2⟩ := step_initResponse opts msg st
    obtain ⟨h3, h4⟩ := ih (processMessage opts msg st).state
    refine ⟨?_, ?_⟩
    · simp only [runFrom, List.countP_append, List.countP_cons, h1, h3, h2]
      omega
    · simp only [runFrom, List.countP_append, h2, h4]

lemma run_connectHook (opts : ServerOpts) (msgs : List RawMsg) :
    ∀ st,
      (runFrom opts st msgs).acts.countP isConnectHookAct =
        (if opts.onConnect.isSome then msgs.countP isInitMsg else 0) ∧
      (runFrom opts st msgs).delayed.countP isConnectHookAct = 0 := by
  induction msgs with
  | nil => intro st; simp [runFrom]
  | cons msg rest ih =>
    intro st
    obtain ⟨h1, h2⟩ := step_connectHook opts msg st
    obtain ⟨h3, h4⟩ := ih (processMessage opts msg st).state
    refine ⟨?_, ?_⟩
    · simp only [runFrom, List.countP_append, List.countP_cons, h1, h3, h2]
      cases ho : opts.onConnect.isSome <;> cases hm : isInitMsg msg <;> simp <;> try omega
    · simp only [runFrom, List.countP_append, h2, h4]

/-- Delayed actions are only ever the scheduled close+terminate pair. -/
lemma step_delayed (opts : ServerOpts) (msg : RawMsg) (st : ConnState) :
    (processMessage opts msg st).delayed = [] ∨
    (processMessage opts msg st).delayed = [.close 1011, .terminate] := by
  cases msg with
  | decodeErr e => exact Or.inl rfl
  | parsed m =>
    cases htype : m.type with
    | init =>
      cases hst : st.initState with
      | pending q =>
        rcases (initChainSends_shape (connectOutcome opts m.payload)).2 with h | h <;>
          [exact Or.inl (by simp [processMessage, htype, hst, h]);
           exact Or.inr (by simp [processMessage, htype, hst, h])]
      | settled o0 =>
        rcases (initChainSends_shape o0).2 with h | h <;>
          [exact Or.inl (by simp [processMessage, htype, hst, h]);
           exact Or.inr (by simp [processMessage, htype, hst, h])]
    | subscriptionStart =>
      cases hst : st.initState with
      | pending q => exact Or.inl (by simp [processMessage, htype, hst])
      | settled o => exact Or.inl (by simp [processMessage, htype, hst])
    | subscriptionEnd =>
      cases hst : st.initState with
      | pending q => exact Or.inl (by simp [processMessage, htype, hst])
      | settled o => exact Or.inl (by simp [processMessage, htype, hst])
    | unknown tag => exact Or.inl (by simp [processMessage, htype])

lemma run_delayed_countP (opts : ServerOpts) (msgs : List RawMsg)
    (p : Action → Bool) (hc : p (.close 1011) = false) (ht : p .terminate = false) :
    ∀ st, (runFrom opts st msgs).delayed.countP p = 0 := by
  induction msgs with
  | nil => intro st; simp [runFrom]
  | cons msg rest ih =>
    intro st
    simp only [runFrom, List.countP_append, ih]
    rcases step_delayed opts msg st with h | h <;>
      simp [h, List.countP_cons, hc, ht]

/-- In the rejected-handshake state every subscription message is inert:
no subscription-success is ever sent and the engine is never subscribed. -/
lemma step_err (opts : ServerOpts) (msg : RawMsg) (st : ConnState)
    (e : JSVal) (h : st.initState = .settled (.error e)) :
    (processMessage opts msg st).acts.countP isSubSuccessSend = 0 ∧
    (processMessage opts msg st).acts.countP isEngineSubscribeAct = 0 := by
  cases msg with
  | decodeErr e2 =>
    simp [processMessage, List.countP_cons, isSubSuccessSend, isEngineSubscribeAct]
  | parsed m =>
    cases htype : m.type with
    | init =>
      constructor <;>
        simp [processMessage, htype, h, initChainSends, initChainResult,
          List.countP_append, List.countP_cons, isSubSuccessSend, isEngineSubscribeAct,
          countP_connectHookActs opts isSubSuccessSend rfl,
          countP_connectHookActs opts isEngineSubscribeAct rfl]
    | subscriptionStart =>
      constructor <;> simp [processMessage, htype, h, runStart]
    | subscriptionEnd =>
      constructor <;> simp [processMessage, htype, h, runEnd]
    | unknown tag =>
      simp [processMessage, htype, List.countP_cons, isSubSuccessSend, isEngineSubscribeAct]

lemma run_err (opts : ServerOpts) (msgs : List RawMsg) (e : JSVal) :
    ∀ st, st.initState = .settled (.error e) →
      (runFrom opts st msgs).acts.countP isSubSuccessSend = 0 ∧
      (runFrom opts st msgs).acts.countP isEngineSubscribeAct = 0 := by
  induction msgs with
  | nil => intro st _; simp [runFrom]
  | cons msg rest ih =>
    intro st h
    obtain ⟨h1, h2⟩ := step_err opts msg st e h
    obtain ⟨h3, h4⟩ := ih _ (step_settled opts msg st _ h)
    constructor <;> simp only [runFrom, List.countP_append, h1, h2, h3, h4]

/-- While the handshake is pending, subscription-start and -end messages
only enqueue their continuations: no action, no registry or counter
change. -/
lemma run_pending_sub (opts : ServerOpts) (msgs : List RawMsg)
    (h : msgs.all isSubMsg = true) :
    ∀ q reg sc, ∃ q2,
      runFrom opts ⟨.pending q, reg, sc⟩ msgs = ⟨⟨.pending q2, reg, sc⟩, [], []⟩ := by
  induction msgs with
  | nil => intro q reg sc; exact ⟨q, rfl⟩
  | cons msg rest ih =>
    intro q reg sc
    rw [List.all_cons, Bool.and_eq_true] at h
    cases msg with
    | decodeErr e => simp [isSubMsg] at h
    | parsed m =>
      cases htype : m.type with
      | init => rw [isSubMsg] at h; simp [htype] at h
      | unknown tag => rw [isSubMsg] at h; simp [htype] at h
      | subscriptionStart =>
        obtain ⟨q2, hq2⟩ := ih h.2 (q ++ [.startTask m]) reg sc
        refine ⟨q2, ?_⟩
        simp [runFrom, processMessage, htype, hq2]
      | subscriptionEnd =>
        obtain ⟨q2, hq2⟩ := ih h.2 (q ++ [.endTask m.id]) reg sc
        refine ⟨q2, ?_⟩
        simp [runFrom, processMessage, htype, hq2]

/-- C1 counterexample: the claim says exactly one handshake-ack or
handshake-error response is produced per connection no matter how many
handshake-init messages arrive; but a connection that receives two init
messages sends two handshake-ack responses (each init message attaches
its own result chain to the settled value). -/
theorem c1_counterexample :
    runConnTrace optsPlain [.parsed (initM .vundefined), .parsed (initM .vundefined)] =
      [.send .initSuccess, .send .initSuccess] ∧
    (runConnTrace optsPlain [.parsed (initM .vundefined), .parsed (initM .vundefined)]).countP
      isInitResponse = 2 :=
  ⟨rfl, rfl⟩

/-- C1 (amended): the handshake settled value is resolved exactly once,
with the outcome of the first handshake-init's connect-hook invocation
(later messages never change it); however the server produces one
handshake-ack/handshake-error response per handshake-init message
received, and the connect hook is invoked on every handshake-init, not
only the first (only the first invocation's outcome is honored). -/
theorem c1_amended (opts : ServerOpts) (msgs : List RawMsg) :
    (runConnTrace opts msgs).countP isInitResponse = msgs.countP isInitMsg ∧
    (runConnTrace opts msgs).countP isConnectHookAct =
      (if opts.onConnect.isSome then msgs.countP isInitMsg else 0) ∧
    settledOf (runConn opts msgs).1 = firstInitOutcome opts msgs := by
  obtain ⟨h1, h2⟩ := run_initResponse opts msgs initialConnState
  obtain ⟨h3, h4⟩ := run_connectHook opts msgs initialConnState
  refine ⟨?_, ?_, ?_⟩
  · simp [runConnTrace, runConn, List.countP_append, h1, h2]
  · simp [runConnTrace, runConn, List.countP_append, h3, h4]
  · simpa [runConn, initialConnState] using run_pending_settles opts msgs [] [] 0

/-- C2: subscription-start and subscription-end messages produce no
effect whatsoever (no action: no hook call, no registry mutation, no
engine call, no response) while the handshake settled value is
unresolved, even when sent immediately after connecting. -/
theorem c2_claim (opts : ServerOpts) (msgs : List RawMsg)
    (h : msgs.all isSubMsg = true) :
    runConnTrace opts msgs = [] ∧
    (runConn opts msgs).1.reg = [] ∧
    (runConn opts msgs).1.subCount = 0 ∧
    settledOf (runConn opts msgs).1 = none := by
  obtain ⟨q2, hq⟩ := run_pending_sub opts msgs h [] [] 0
  have hrun : runFrom opts initialConnState msgs = ⟨⟨.pending q2, [], 0⟩, [], []⟩ := by
    simpa [initialConnState] using hq
  refine ⟨?_, ?_, ?_, ?_⟩ <;> simp [runConnTrace, runConn, hrun, settledOf]

theorem c2_witness :
    ([RawMsg.parsed (startM "1"), RawMsg.parsed (endM "1")].all isSubMsg = true) ∧
    runConnTrace optsPlain [.parsed (startM "1"), .parsed (endM "1")] = [] :=
  ⟨rfl, (c2_claim optsPlain [.parsed (startM "1"), .parsed (endM "1")] rfl).1⟩

/-- C3 counterexample: the claim says that after a handshake settled
value of `false` no subscription-success is ever sent on the connection;
but `false` resolves (rather than rejects) the settled value, so a
subscription-start processed before the delayed close still subscribes
and sends subscription-success — after the handshake-error and before
the scheduled close(1011)/terminate. -/
theorem c3_counterexample :
    runConnTrace optsFalse [.parsed (initM .vundefined), .parsed (startM "1")] =
      [.connectHookCall, .send (.initFail (.vstr "Prohibited connection!")),
        .engineSubscribe 0, .send (.subscriptionSuccess (some "1")),
        .close 1011, .terminate] ∧
    (runConnTrace optsFalse [.parsed (initM .vundefined), .parsed (startM "1")]).countP
      isSubSuccessSend = 1 :=
  ⟨rfl, rfl⟩

/-- C3 (amended): whenever the connect hook throws or rejects, the
server sends a handshake-error response carrying the rejection's message
text, the delayed close(1011)+terminate fires after the flush interval,
and no subscription-success or engine-subscribe ever occurs on that
connection. When the hook instead returns the boolean `false`, the
handshake-error (message "Prohibited connection!") and the delayed 1011
closure still occur, but the settled value resolves successfully with
`false`, so subscription traffic processed before the delayed close
still takes effect. -/
theorem c3_amended (opts : ServerOpts) (f : JSVal → Except JSVal JSVal)
    (m : ParsedMessage) (rest : List RawMsg) (e : JSVal)
    (hhook : opts.onConnect = some f) (htype : m.type = MsgType.init) :
    (f m.payload = .error e →
      runConnTrace opts (.parsed m :: rest) =
        .connectHookCall :: .send (.initFail (getField e "message")) ::
          ((runFrom opts ⟨.settled (.error e), [], 0⟩ rest).acts ++
            (.close 1011 :: .terminate ::
              (runFrom opts ⟨.settled (.error e), [], 0⟩ rest).delayed)) ∧
      (runConnTrace opts (.parsed m :: rest)).countP isSubSuccessSend = 0 ∧
      (runConnTrace opts (.parsed m :: rest)).countP isEngineSubscribeAct = 0) ∧
    (f m.payload = .ok (.vbool false) →
      runConnTrace opts (.parsed m :: rest) =
        .connectHookCall :: .send (.initFail (.vstr "Prohibited connection!")) ::
          ((runFrom opts ⟨.settled (.ok (.vbool false)), [], 0⟩ rest).acts ++
            (.close 1011 :: .terminate ::
              (runFrom opts ⟨.settled (.ok (.vbool false)), [], 0⟩ rest).delayed))) := by
  constructor
  · intro herr
    have houtcome : connectOutcome opts m.payload = .error e := by
      simp [connectOutcome, hhook, herr]
    have htrace : runConnTrace opts (.parsed m :: rest) =
        .connectHookCall :: .send (.initFail (getField e "message")) ::
          ((runFrom opts ⟨.settled (.error e), [], 0⟩ rest).acts ++
            (.close 1011 :: .terminate ::
              (runFrom opts ⟨.settled (.error e), [], 0⟩ rest).delayed)) := by
      simp [runConnTrace, runConn, runFrom, processMessage, htype, houtcome, hhook,
        connectHookActs, flushQueue, initChainSends, initChainResult, initialConnState]
    obtain ⟨ha1, ha2⟩ := run_err opts rest e ⟨.settled (.error e), [], 0⟩ rfl
    have hd1 := run_delayed_countP opts rest isSubSuccessSend rfl rfl
      ⟨.settled (.error e), [], 0⟩
    have hd2 := run_delayed_countP opts rest isEngineSubscribeAct rfl rfl
      ⟨.settled (.error e), [], 0⟩
    refine ⟨htrace, ?_, ?_⟩
    · rw [htrace]
      simp [List.countP_cons, List.countP_append, isSubSuccessSend, ha1, hd1]
    · rw [htrace]
      simp [List.countP_cons, List.countP_append, isEngineSubscribeAct, ha2, hd2]
  · intro hfalse
    have houtcome : connectOutcome opts m.payload = .ok (.vbool false) := by
      simp [connectOutcome, hhook, hfalse]
    simp [runConnTrace, runConn, runFrom, processMessage, htype, houtcome, hhook,
      connectHookActs, flushQueue, initChainSends, initChainResult, initialConnState,
      getField, jsError, List.lookup]

theorem c3_witness :
    optsReject.onConnect = some rejectHook ∧
    (initM .vundefined).type = MsgType.init ∧
    rejectHook (initM .vundefined).payload = .error (jsError "nope") ∧
    (runConnTrace optsReject [.parsed (initM .vundefined)]).countP isSubSuccessSend = 0 :=
  ⟨rfl, rfl, rfl,
    ((c3_amended optsReject rejectHook (initM .vundefined) [] (jsError "nope")
      rfl rfl).1 rfl).2.1⟩

/-- C4 counterexample: the claim says every subscription-start whose id
already maps to an active handle unsubscribes the prior handle first;
but the duplicate check tests JavaScript truthiness of the stored
handle, so when the stored handle is the number 0 (the first handle the
real manager hands out) no unsubscribe happens at all — the prior handle
is silently overwritten and orphaned. -/
theorem c4_counterexample :
    regLookup [("1", 0)] (idKey (startM "1").id) = some 0 ∧
    runStart optsPlain (startM "1") (.ok (.vbool true)) [("1", 0)] 1 =
      ([("1", 1)], 2, [.engineSubscribe 1, .send (.subscriptionSuccess (some "1"))]) ∧
    unsubHandles (runStart optsPlain (startM "1") (.ok (.vbool true)) [("1", 0)] 1).2.2 =
      [] :=
  ⟨rfl, rfl, rfl⟩

/-- C4 (amended): for every subscription-start whose id already maps to
a truthy (nonzero) handle in the registry, the prior handle is
unsubscribed from the engine and removed before the new subscribe call,
and exactly one unsubscribe call precedes the new subscribe call. -/
theorem c4_amended (opts : ServerOpts) (m : ParsedMessage) (iv params : JSVal)
    (reg : Reg) (sc h0 h1 : Nat)
    (hdup : regLookup reg (idKey m.id) = some h0) (hnz : h0 ≠ 0)
    (hparams : promisedParamsOf opts m iv = .ok params)
    (hobj : typeofIsObject params = true)
    (hsub : opts.subscribeFn sc params = .ok h1) :
    runStart opts m (.ok iv) reg sc =
      (regInsert (regRemove reg (idKey m.id)) (idKey m.id) h1, sc + 1,
        subscribeHookActs opts ++ unsubActs opts h0 ++
          [.engineSubscribe sc, .send (.subscriptionSuccess m.id)]) ∧
    unsubHandles (runStart opts m (.ok iv) reg sc).2.2 = [h0] := by
  have hbne : (h0 != 0) = true := by simpa using hnz
  have heq : runStart opts m (.ok iv) reg sc =
      (regInsert (regRemove reg (idKey m.id)) (idKey m.id) h1, sc + 1,
        subscribeHookActs opts ++ unsubActs opts h0 ++
          [.engineSubscribe sc, .send (.subscriptionSuccess m.id)]) := by
    unfold runStart
    simp [hdup, hbne, hparams, hobj, hsub]
  refine ⟨heq, ?_⟩
  rw [heq]
  have htail : unsubHandles
      [Action.engineSubscribe sc, Action.send (ServerMsg.subscriptionSuccess m.id)] = [] := rfl
  simp only [unsubHandles_append, unsubHandles_subscribeHookActs,
    unsubHandles_unsubActs, htail, List.nil_append, List.append_nil]

theorem c4_witness :
    regLookup [("1", 5)] (idKey (startM "1").id) = some 5 ∧
    (5 : Nat) ≠ 0 ∧
    unsubHandles (runStart optsPlain (startM "1") (.ok (.vbool true)) [("1", 5)] 1).2.2 =
      [5] :=
  ⟨rfl, by decide,
    (c4_amended optsPlain (startM "1") (.vbool true)
      (baseParamsVal (startM "1") (.vbool true)) [("1", 5)] 1 5 1
      rfl (by decide) rfl rfl rfl).2⟩

/-- C5: closing a connection with N active subscriptions unsubscribes
every stored handle from the engine exactly once (N unsubscribe calls,
pairwise distinct when the stored handles are distinct, as the engine's
fresh-handle contract guarantees) and leaves the registry empty. -/
theorem c5_claim (opts : ServerOpts) (reg : Reg)
    (hnd : (reg.map Prod.snd).Nodup) :
    (onCloseRun opts reg).1 = [] ∧
    unsubHandles (onCloseRun opts reg).2 = reg.map Prod.snd ∧
    (unsubHandles (onCloseRun opts reg).2).length = reg.length ∧
    (unsubHandles (onCloseRun opts reg).2).Nodup := by
  have hfst : ∀ r : Reg, (drainClose opts r).1 = [] := by
    intro r
    induction r with
    | nil => rfl
    | cons p rest ih => obtain ⟨k, h⟩ := p; simp [drainClose, ih]
  have hhandles : ∀ r : Reg, unsubHandles (drainClose opts r).2 = r.map Prod.snd := by
    intro r
    induction r with
    | nil => rfl
    | cons p rest ih =>
      obtain ⟨k, h⟩ := p
      simp [drainClose, unsubHandles_append, unsubHandles_unsubActs, ih]
  have h2 : unsubHandles (onCloseRun opts reg).2 = reg.map Prod.snd := by
    have hdisc : unsubHandles
        (if opts.hasOnDisconnect then [Action.disconnectHookCall] else []) = [] := by
      cases hd : opts.hasOnDisconnect <;> rfl
    simp only [onCloseRun, unsubHandles_append, hhandles, hdisc, List.append_nil]
  exact ⟨by simp [onCloseRun, hfst], h2, by simp [h2], by rw [h2]; exact hnd⟩

theorem c5_witness :
    (([("a", 1), ("b", 2)] : Reg).map Prod.snd).Nodup ∧
    unsubHandles (onCloseRun optsPlain [("a", 1), ("b", 2)]).2 = [1, 2] :=
  ⟨by decide, ((c5_claim optsPlain [("a", 1), ("b", 2)] (by decide)).2.1).trans rfl⟩

/-- C6: the per-event delivery callback forwards an error carrying a
truthy `errors` field verbatim as subscription-data with that errors
field, wraps any other error as a single-element errors list with the
error's message, forwards a non-error result as the subscription-data
payload as-is, and always produces a subscription-data message — never a
subscription-error, and never any registry or engine effect. -/
theorem c6_claim (subId : Option String) (error result : JSVal) :
    (truthy error = false →
      subscriptionCallbackMsg subId error result = .subscriptionData subId result) ∧
    (truthy error = true → truthy (getField error "errors") = true →
      subscriptionCallbackMsg subId error result =
        .subscriptionData subId (.vobj [("errors", getField error "errors")])) ∧
    (truthy error = true → truthy (getField error "errors") = false →
      subscriptionCallbackMsg subId error result =
        .subscriptionData subId
          (.vobj [("errors", .varr [.vobj [("message", getField error "message")]])])) ∧
    isDataMsg (subscriptionCallbackMsg subId error result) = true := by
  refine ⟨?_, ?_, ?_, ?_⟩
  · intro h; simp [subscriptionCallbackMsg, h]
  · intro h1 h2; simp [subscriptionCallbackMsg, h1, h2]
  · intro h1 h2; simp [subscriptionCallbackMsg, h1, h2]
  · by_cases h1 : truthy error <;> by_cases h2 : truthy (getField error "errors") <;>
      simp [subscriptionCallbackMsg, isDataMsg, h1, h2]

/-- A per-event error value carrying a structured errors list. -/
def c6err : JSVal := .vobj [("errors", .varr [.vstr "x"])]

theorem c6_witness :
    truthy c6err = true ∧ truthy (getField c6err "errors") = true ∧
    subscriptionCallbackMsg (some "1") c6err .vundefined =
      .subscriptionData (some "1") (.vobj [("errors", .varr [.vstr "x"])]) :=
  ⟨rfl, rfl, ((c6_claim (some "1") c6err .vundefined).2.1 rfl rfl).trans rfl⟩

/-- C7 counterexample: the claim says the decode-failure path is the
only failure path that bypasses the handshake wait; but an
unrecognized-type message is also answered immediately — here a
subscription-error is emitted while the handshake settled value is still
unresolved (the state is untouched and remains pending). -/
theorem c7_counterexample :
    processMessage optsPlain
        (.parsed ⟨.unknown "bogus", some "9", .vundefined, .vundefined, .vundefined, .vundefined⟩)
        initialConnState =
      ⟨initialConnState,
        [.send (.subscriptionFail (some "9") (singleMessageErrors "Invalid message type!"))],
        []⟩ ∧
    settledOf initialConnState = none :=
  ⟨rfl, rfl⟩

/-- C7 (amended): a raw message that fails to decode is answered
immediately — regardless of the handshake state — with a
subscription-error carrying id null and the decode failure's message;
the connection state is untouched and no close is scheduled. It is not
the only bypass: unrecognized-type messages are likewise answered
without waiting on the handshake. -/
theorem c7_amended (opts : ServerOpts) (st : ConnState) (e : String)
    (m : ParsedMessage) (tag : String) :
    processMessage opts (.decodeErr e) st =
      ⟨st, [.send (.subscriptionFail none (singleMessageErrors e))], []⟩ ∧
    (m.type = MsgType.unknown tag →
      processMessage opts (.parsed m) st =
        ⟨st, [.send (.subscriptionFail m.id (singleMessageErrors "Invalid message type!"))],
          []⟩) := by
  refine ⟨rfl, fun h => ?_⟩
  simp [processMessage, h]

theorem c7_witness :
    processMessage optsPlain (.decodeErr "Unexpected token u in JSON at position 0")
        initialConnState =
      ⟨initialConnState,
        [.send (.subscriptionFail none
          (singleMessageErrors "Unexpected token u in JSON at position 0"))], []⟩ ∧
    processMessage optsPlain
        (.parsed ⟨.unknown "zzz", some "7", .vundefined, .vundefined, .vundefined, .vundefined⟩)
        initialConnState =
      ⟨initialConnState,
        [.send (.subscriptionFail (some "7") (singleMessageErrors "Invalid message type!"))],
        []⟩ :=
  ⟨(c7_amended optsPlain initialConnState "Unexpected token u in JSON at position 0"
      ⟨.unknown "zzz", some "7", .vundefined, .vundefined, .vundefined, .vundefined⟩ "zzz").1,
   (c7_amended optsPlain initialConnState "Unexpected token u in JSON at position 0"
      ⟨.unknown "zzz", some "7", .vundefined, .vundefined, .vundefined, .vundefined⟩ "zzz").2 rfl⟩

/-- C8: when the stored engine handle for an id is the number 0, a new
subscription-start for that id does not unsubscribe or remove the prior
handle before subscribing (the duplicate check tests truthiness, and 0
is falsy), while a subscription-end for that id does unsubscribe and
remove it (its check only excludes undefined). -/
theorem c8_claim (opts : ServerOpts) (m : ParsedMessage) (iv params : JSVal)
    (reg : Reg) (sc h1 : Nat)
    (hdup : regLookup reg (idKey m.id) = some 0)
    (hparams : promisedParamsOf opts m iv = .ok params)
    (hobj : typeofIsObject params = true)
    (hsub : opts.subscribeFn sc params = .ok h1) :
    runStart opts m (.ok iv) reg sc =
      (regInsert reg (idKey m.id) h1, sc + 1,
        subscribeHookActs opts ++
          [.engineSubscribe sc, .send (.subscriptionSuccess m.id)]) ∧
    unsubHandles (runStart opts m (.ok iv) reg sc).2.2 = [] ∧
    runEnd opts m.id (.ok iv) reg = (regRemove reg (idKey m.id), unsubActs opts 0) ∧
    unsubHandles (runEnd opts m.id (.ok iv) reg).2 = [0] := by
  have heq : runStart opts m (.ok iv) reg sc =
      (regInsert reg (idKey m.id) h1, sc + 1,
        subscribeHookActs opts ++
          [.engineSubscribe sc, .send (.subscriptionSuccess m.id)]) := by
    unfold runStart
    simp [hdup, hparams, hobj, hsub]
  have hend : runEnd opts m.id (.ok iv) reg =
      (regRemove reg (idKey m.id), unsubActs opts 0) := by
    unfold runEnd
    simp [hdup]
  refine ⟨heq, ?_, hend, ?_⟩
  · rw [heq]
    have htail : unsubHandles
        [Action.engineSubscribe sc, Action.send (ServerMsg.subscriptionSuccess m.id)] = [] := rfl
    simp only [unsubHandles_append, unsubHandles_subscribeHookActs, htail,
      List.nil_append, List.append_nil]
  · rw [hend]
    exact unsubHandles_unsubActs opts 0

theorem c8_witness :
    regLookup [("1", 0)] (idKey (startM "1").id) = some 0 ∧
    unsubHandles (runEnd optsPlain (startM "1").id (.ok (.vbool true)) [("1", 0)]).2 =
      [0] :=
  ⟨rfl, (c8_claim optsPlain (startM "1") (.vbool true)
      (baseParamsVal (startM "1") (.vbool true)) [("1", 0)] 5 5 rfl rfl rfl rfl).2.2.2⟩

/-- C9: when the before-subscribe hook resolves to a value whose typeof
is not object, the start handler sends the inline subscription-error,
throws, and the catch handler sends a second subscription-error with the
identical payload; no engine subscribe happens and no handle is
installed (registry and subscribe counter unchanged). -/
theorem c9_claim (opts : ServerOpts) (f : ParsedMessage → JSVal → Except JSVal JSVal)
    (m : ParsedMessage) (iv params : JSVal) (reg : Reg) (sc : Nat)
    (hhook : opts.onSubscribe = some f)
    (hres : f m (baseParamsVal m iv) = .ok params)
    (hnonobj : typeofIsObject params = false)
    (hnone : regLookup reg (idKey m.id) = none) :
    runStart opts m (.ok iv) reg sc =
      (reg, sc,
        [.subscribeHookCall,
         .send (.subscriptionFail m.id (singleMessageErrors invalidParamsText)),
         .send (.subscriptionFail m.id (catchFailPayload (jsError invalidParamsText)))]) ∧
    catchFailPayload (jsError invalidParamsText) = singleMessageErrors invalidParamsText := by
  constructor
  · unfold runStart
    simp [promisedParamsOf, subscribeHookActs, hhook, hres, hnonobj, hnone]
  · rfl

theorem c9_witness :
    optsBadSub.onSubscribe = some badSubHook ∧
    typeofIsObject (.vnum 7) = false ∧
    runStart optsBadSub (startM "1") (.ok (.vbool true)) [] 0 =
      ([], 0,
        [.subscribeHookCall,
         .send (.subscriptionFail (some "1") (singleMessageErrors invalidParamsText)),
         .send (.subscriptionFail (some "1")
           (catchFailPayload (jsError invalidParamsText)))]) :=
  ⟨rfl, rfl,
    (c9_claim optsBadSub badSubHook (startM "1") (.vbool true) (.vnum 7) [] 0
      rfl rfl rfl rfl).1⟩

/-- C10: after a handshake rejection (the settled value is a rejection),
subscription-start and subscription-end messages have no effect and
elicit no response at all: both handlers chain only a success
continuation onto the rejected settled value, so no message, no registry
change and no engine call is produced. -/
theorem c10_claim (opts : ServerOpts) (e : JSVal) (st : ConnState) (m : ParsedMessage)
    (hstate : st.initState = .settled (.error e))
    (htype : m.type = MsgType.subscriptionStart ∨ m.type = MsgType.subscriptionEnd) :
    processMessage opts (.parsed m) st = ⟨st, [], []⟩ := by
  obtain ⟨is, reg, sc⟩ := st
  dsimp only at hstate
  subst hstate
  rcases htype with h | h <;> simp [processMessage, h, runStart, runEnd]

theorem c10_witness :
    (ConnState.mk (.settled (.error (jsError "nope"))) [("1", 3)] 2).initState =
      .settled (.error (jsError "nope")) ∧
    processMessage optsPlain (.parsed (startM "1"))
        ⟨.settled (.error (jsError "nope")), [("1", 3)], 2⟩ =
      ⟨⟨.settled (.error (jsError "nope")), [("1", 3)], 2⟩, [], []⟩ ∧
    processMessage optsPlain (.parsed (endM "1"))
        ⟨.settled (.error (jsError "nope")), [("1", 3)], 2⟩ =
      ⟨⟨.settled (.error (jsError "nope")), [("1", 3)], 2⟩, [], []⟩ :=
  ⟨rfl,
   c10_claim optsPlain (jsError "nope") _ (startM "1") rfl (Or.inl rfl),
   c10_claim optsPlain (jsError "nope") _ (endM "1") rfl (Or.inr rfl)⟩

end SubTransport
